import Mathlib

/-!
# Formal model of the tradekit exit-evaluation engine

A shallow embedding of the rule-based trade-exit engine:

* the five rule kinds and their template implementations
  (`templates/my_stop_rules/constant.py`, `templates/my_profit_rules/constant.py`,
  `templates/my_date_rules/*.py`, `templates/my_volume_rules/interval.py`,
  `templates/my_event_rules/earnings.py`),
* the rule registries and factories (`src/tradekit/exec_rules/*/factory.py`),
* the `Trade` entity with its incremental evaluator
  (`src/tradekit/forward_engine/trade.py`),
* the batch evaluator (`src/tradekit/backtest_engine/engine.py`), and
* the live engine state transitions and checkpointing
  (`src/tradekit/forward_engine/engine.py`).

Timestamps are modelled as natural numbers counting minutes (a day is 1440
minutes), prices and capital as integers, and Python exceptions as an
explicit error type threaded through `Except`.
-/

/-- The Python exceptions surfaced by the modelled code paths. -/
inductive PyError where
  | valueError (msg : String)
  | typeError (msg : String)
  | attributeError (msg : String)
  | keyError (key : String)
  | moduleNotFoundError (modName : String)
  | nameError (varName : String)
  deriving DecidableEq, Repr

/-- The reasons with which a trade can close (`stop`, `profit`, `timeout`). -/
inductive ExitReason where
  | stop
  | profit
  | timeout
  deriving DecidableEq, Repr

/-- One OHLCV bar: a timestamp plus per-symbol low/high/close prices and
volumes (the engine consumes `Low`, `High`, `Close` and `Volume`). -/
structure Bar where
  ts : Nat
  low : List Int
  high : List Int
  close : List Int
  volume : List Int
  deriving DecidableEq, Repr

instance : Inhabited Bar := ⟨⟨0, [], [], [], []⟩⟩

/-- Minute-of-day of a timestamp (models `pd.Timestamp.time()`). -/
def tsTime (ts : Nat) : Nat := ts % 1440

/-- Day number of a timestamp (models `pd.Timestamp.date()`). -/
def tsDate (ts : Nat) : Nat := ts / 1440

/-- `np.logical_or.reduce` over a list of boolean masks. -/
def orReduce : List (List Bool) → List Bool
  | [] => []
  | m :: ms => ms.foldl (fun acc m' => acc.zipWith or m') m

/-- `np.logical_and.reduce` over a list of boolean masks; the empty reduction
is `True`, which numpy broadcasts over a window of length `n`. -/
def andReduce (n : Nat) : List (List Bool) → List Bool
  | [] => List.replicate n true
  | m :: ms => ms.foldl (fun acc m' => acc.zipWith and m') m

/-- `numpy.ndarray.all` of `np.where(trade_type == 1, condLong, condShort)`,
the shape shared by every `hit` implementation of the price rules. -/
def npWhereAll (trade_type : List Int) (condLong condShort : Nat → Bool) : Bool :=
  (List.range trade_type.length).all fun i =>
    if trade_type.getD i 0 = 1 then condLong i else condShort i

/-! ## Stop rules (`templates/my_stop_rules/constant.py`,
`templates/my_stop_rules/static.py`) -/

/-- The per-symbol level vector `entry_price * (1 - trade_type * bps /
10000)` computed by `StaticStop.__init__` and recomputed by its `exit_mask`.
The arithmetic is modelled exactly, scaled by the positive denominator
10000: this def returns `entry_price * (10000 - trade_type * bps)`, and
every comparison of a price `p` against the level compares `p * 10000`
against it, which is equivalent since `10000 > 0`. -/
def staticStopPrice (ep tt bps : List Int) : List Int :=
  (List.range tt.length).map fun i =>
    ep.getD i 0 * (10000 - tt.getD i 0 * bps.getD i 0)

/-- The stop-rule implementations in the repository's template package that
the model covers.  `constant` is `ConstantStop`: `_level = entry_price -
abs_diff` is set at construction (note: not adjusted by trade direction).
`static` is `StaticStop`: `_level = entry_price * (1 - trade_type * bps /
10000)`, basis points per symbol, carried here scaled by 10000 (see
`staticStopPrice`). -/
inductive StopObj where
  | constant (entry_price trade_type level : List Int) (abs_diff : Int)
  | static (entry_price trade_type bps level : List Int)
  deriving DecidableEq, Repr

/-- `ConstantStop.hit` and `StaticStop.hit`: `np.where(trade_type == 1,
level >= bar.Low, level <= bar.High).all()` (the static level is scaled by
10000, so the bar prices are scaled alike before comparing). -/
def StopObj.hit : StopObj → Bar → Bool
  | .constant _ tt lvl _, bar =>
      npWhereAll tt
        (fun i => decide (bar.low.getD i 0 ≤ lvl.getD i 0))
        (fun i => decide (lvl.getD i 0 ≤ bar.high.getD i 0))
  | .static _ tt _ lvl, bar =>
      npWhereAll tt
        (fun i => decide (bar.low.getD i 0 * 10000 ≤ lvl.getD i 0))
        (fun i => decide (lvl.getD i 0 ≤ bar.high.getD i 0 * 10000))

/-- `exit_mask` of the stop templates, per-symbol masks combined with
`np.logical_or.reduce`.

* `ConstantStop.exit_mask`: per symbol `i`, `Close[:, i] < stop_price[i]`
  for longs and `Close[:, i] > stop_price[i]` for shorts, with `stop_price =
  entry_price - trade_type * abs_diff`.
* `StaticStop.exit_mask`: per symbol `i`, `Low[:, i] < stop_price[i]` for
  longs and `High[:, i] > stop_price[i]` for shorts, with `stop_price =
  entry_price * (1 - trade_type * bps / 10000)`. -/
def StopObj.exit_mask : StopObj → List Bar → List Bool
  | .constant ep tt _ ad, df =>
      orReduce <| (List.range tt.length).map fun i =>
        let sp := ep.getD i 0 - tt.getD i 0 * ad
        df.map fun bar =>
          if tt.getD i 0 = 1 then decide (bar.close.getD i 0 < sp)
          else decide (sp < bar.close.getD i 0)
  | .static ep tt bps _, df =>
      orReduce <| (List.range tt.length).map fun i =>
        let sp := (staticStopPrice ep tt bps).getD i 0
        df.map fun bar =>
          if tt.getD i 0 = 1 then decide (bar.low.getD i 0 * 10000 < sp)
          else decide (sp < bar.high.getD i 0 * 10000)

/-- `ConstantStop.update` and `StaticStop.update` are `pass`. -/
def StopObj.update : StopObj → Bar → StopObj
  | s, _ => s

/-! ## Profit rules (`templates/my_profit_rules/constant.py`,
`templates/my_profit_rules/static.py`) -/

/-- The per-symbol level vector `entry_price * (1 + trade_type * bps /
10000)` computed by `StaticProfit.__init__` and recomputed by its
`exit_mask`; modelled exactly, scaled by 10000 like `staticStopPrice`:
this def returns `entry_price * (10000 + trade_type * bps)`. -/
def staticProfitPrice (ep tt bps : List Int) : List Int :=
  (List.range tt.length).map fun i =>
    ep.getD i 0 * (10000 + tt.getD i 0 * bps.getD i 0)

/-- The profit-rule implementations covered by the model.  `constant` is
`ConstantProfit`: `_level = entry_price + abs_diff` at construction.
`static` is `StaticProfit`: `_level = entry_price * (1 + trade_type * bps /
10000)`, carried scaled by 10000 (see `staticProfitPrice`). -/
inductive ProfitObj where
  | constant (entry_price trade_type level : List Int) (abs_diff : Int)
  | static (entry_price trade_type bps level : List Int)
  deriving DecidableEq, Repr

/-- `ConstantProfit.hit` and `StaticProfit.hit`: `np.where(trade_type == 1,
level <= bar.High, level >= bar.Low).all()` (static level scaled by
10000). -/
def ProfitObj.hit : ProfitObj → Bar → Bool
  | .constant _ tt lvl _, bar =>
      npWhereAll tt
        (fun i => decide (lvl.getD i 0 ≤ bar.high.getD i 0))
        (fun i => decide (bar.low.getD i 0 ≤ lvl.getD i 0))
  | .static _ tt _ lvl, bar =>
      npWhereAll tt
        (fun i => decide (lvl.getD i 0 ≤ bar.high.getD i 0 * 10000))
        (fun i => decide (bar.low.getD i 0 * 10000 ≤ lvl.getD i 0))

/-- `exit_mask` of the profit templates, OR-reduced over symbols.

* `ConstantProfit.exit_mask`: per symbol `i`, `Close[:, i] >=
  profit_price[i]` for longs and `Close[:, i] <= profit_price[i]` for
  shorts, with `profit_price = entry_price + trade_type * abs_diff`.
* `StaticProfit.exit_mask`: per symbol `i`, `High[:, i] >= profit_price[i]`
  for longs and `Low[:, i] <= profit_price[i]` for shorts, with
  `profit_price = entry_price * (1 + trade_type * bps / 10000)`. -/
def ProfitObj.exit_mask : ProfitObj → List Bar → List Bool
  | .constant ep tt _ ad, df =>
      orReduce <| (List.range tt.length).map fun i =>
        let pp := ep.getD i 0 + tt.getD i 0 * ad
        df.map fun bar =>
          if tt.getD i 0 = 1 then decide (pp ≤ bar.close.getD i 0)
          else decide (bar.close.getD i 0 ≤ pp)
  | .static ep tt bps _, df =>
      orReduce <| (List.range tt.length).map fun i =>
        let pp := (staticProfitPrice ep tt bps).getD i 0
        df.map fun bar =>
          if tt.getD i 0 = 1 then decide (pp ≤ bar.high.getD i 0 * 10000)
          else decide (bar.low.getD i 0 * 10000 ≤ pp)

/-- `ConstantProfit.update` and `StaticProfit.update` are `pass`. -/
def ProfitObj.update : ProfitObj → Bar → ProfitObj
  | p, _ => p

/-! ## Datetime rules (`templates/my_date_rules/`) -/

/-- Membership of a minute-of-day in one configured interval, exactly as the
two branches of `TimeIntervalRule` test it (the constructor rejects wrapped
intervals, but both branches are kept as in the source). -/
def intervalContains (t : Nat) : Nat × Nat → Bool
  | (s, e) =>
      if s ≤ e then decide (s ≤ t) && decide (t ≤ e)
      else decide (s ≤ t) || decide (t ≤ e)

/-- The datetime-rule implementations covered by the model:
`TimeIntervalRule` (a list of intra-day time intervals, in minutes) and
`DayRule` (a list of weekday numbers to exclude). -/
inductive DateObj where
  | timeInterval (intervals : List (Nat × Nat))
  | day (days : List Nat)
  deriving DecidableEq, Repr

/-- `hit` of the datetime rules.

* `TimeIntervalRule.hit` returns `False` when the bar time lies in one of the
  configured intervals, else `True`.
* `DayRule.hit` tests `ts.weekday in self.days`.  In the source `ts.weekday`
  is written without parentheses, so the membership test compares a bound
  method object against a list of integers and is always false; the method
  therefore returns `True` on every timestamp. -/
def DateObj.hit : DateObj → Nat → Bool
  | .timeInterval ivs, ts => !(ivs.any (intervalContains (tsTime ts)))
  | .day _, _ => true

/-- `exit_mask` of the datetime rules.

* `TimeIntervalRule.exit_mask` marks `True` exactly the window positions whose
  time lies inside a configured interval.
* `DayRule.exit_mask` is `~df.index.weekday.isin(days)`. -/
def DateObj.exit_mask : DateObj → List Bar → List Bool
  | .timeInterval ivs, df => df.map fun bar => ivs.any (intervalContains (tsTime bar.ts))
  | .day days, df => df.map fun bar => !(days.contains ((tsDate bar.ts) % 7))

/-- Both datetime templates define `update` as `pass`. -/
def DateObj.update : DateObj → Bar → DateObj
  | d, _ => d

/-! ## Volume rules (`templates/my_volume_rules/interval.py`) -/

/-- The volume-rule implementations covered by the model: `VolumeInterval`,
holding the entry volumes, trade directions and admissible volume bands. -/
inductive VolObj where
  | interval (entry_vol trade_type : List Int) (intervals : List (Int × Int))
  deriving DecidableEq, Repr

/-- `VolumeInterval.hit`: `True` iff the volume lies in one of the bands. -/
def VolObj.hit : VolObj → Int → Bool
  | .interval _ _ ivs, vol => ivs.any fun p => decide (p.1 ≤ vol) && decide (vol ≤ p.2)

/-- `VolumeInterval.exit_mask`: per symbol column the in-band mask over the
window, combined with `np.logical_and.reduce`. -/
def VolObj.exit_mask : VolObj → List Bar → List Bool
  | .interval _ _ ivs, df =>
      let nsym := (df.getD 0 default).volume.length
      andReduce df.length <| (List.range nsym).map fun i =>
        df.map fun bar =>
          ivs.any fun p =>
            decide (p.1 ≤ bar.volume.getD i 0) && decide (bar.volume.getD i 0 ≤ p.2)

/-- `VolumeInterval.update` is `pass`. -/
def VolObj.update : VolObj → Bar → VolObj
  | v, _ => v

/-! ## Event rules (`templates/my_event_rules/earnings.py`) -/

/-- Modelled from the spec: the only event-rule template, `Earnings`, looks
its event dates up from a live market-data web service at each call, which
the spec designates an external collaborator outside the core.  The model
fixes the response as this snapshot of event days (empty here); no claim
depends on its contents. -/
def earningsCalendar : List Nat := []

/-- The event-rule implementations covered by the model: `Earnings`, holding
the symbols whose earnings dates embargo exit evaluation. -/
inductive EventObj where
  | earnings (symbols : List String)
  deriving DecidableEq, Repr

/-- `Earnings.hit`: `False` when the bar's day is an earnings day for one of
the configured symbols, else `True` (dates from `earningsCalendar`). -/
def EventObj.hit : EventObj → Nat → Bool
  | .earnings _, ts => !(earningsCalendar.contains (tsDate ts))

/-- `Earnings.exit_mask`: `True` exactly at window positions whose day is not
an earnings day. -/
def EventObj.exit_mask : EventObj → List Bar → List Bool
  | .earnings _, df => df.map fun bar => !(earningsCalendar.contains (tsDate bar.ts))

/-- `Earnings.update` is `pass`. -/
def EventObj.update : EventObj → Bar → EventObj
  | e, _ => e

/-! ## Rule configurations and registry factories
(`src/tradekit/exec_rules/*/factory.py`)

Each registry maps the template module path (the name under which the
template registers itself, e.g. `my_stop_rules.constant`) to the class; an
unknown name makes `get_*` attempt `__import__(name)`, which fails with
`ModuleNotFoundError` for anything that is not an importable module. -/

/-- Constructor parameters of the stop-rule templates: `abs_diff` for
`ConstantStop`, `bps` for `StaticStop`. -/
inductive StopParams where
  | constantParams (abs_diff : Int)
  | staticParams (bps : List Int)
  deriving DecidableEq, Repr

/-- A stop-rule spec dictionary: the registry name plus the constructor
parameters. -/
structure StopCfg where
  name : String
  params : StopParams
  deriving DecidableEq, Repr

/-- Constructor parameters of the profit-rule templates: `abs_diff` for
`ConstantProfit`, `bps` for `StaticProfit`. -/
inductive ProfitParams where
  | constantParams (abs_diff : Int)
  | staticParams (bps : List Int)
  deriving DecidableEq, Repr

/-- A profit-rule spec dictionary: the registry name plus the constructor
parameters. -/
structure ProfitCfg where
  name : String
  params : ProfitParams
  deriving DecidableEq, Repr

/-- Parameters of the datetime-rule templates. -/
inductive DateParams where
  | timeIntervals (intervals : List (Nat × Nat))
  | daysToExclude (days : List Nat)
  deriving DecidableEq, Repr

/-- A datetime-rule spec dictionary. -/
structure DateCfg where
  name : String
  params : DateParams
  deriving DecidableEq, Repr

/-- A volume-rule spec dictionary (`VolumeInterval` parameters). -/
structure VolCfg where
  name : String
  intervals : List (Int × Int)
  deriving DecidableEq, Repr

/-- An event-rule spec dictionary (`Earnings` parameters). -/
structure EventCfg where
  name : String
  symbols : List String
  deriving DecidableEq, Repr

/-- `make_stop` (`exec_rules/stop/factory.py`): resolve the class by registry
name and call its constructor with the entry references merged in
(`price_args | stop_rule`); `ConstantStop.__init__` sets `_level =
entry_price - abs_diff`.  An unregistered, unimportable name raises
`ModuleNotFoundError`. -/
def make_stop (entry_price trade_type : List Int) (cfg : StopCfg) :
    Except PyError StopObj :=
  if cfg.name = "my_stop_rules.constant" then
    match cfg.params with
    | .constantParams ad =>
        .ok (.constant entry_price trade_type (entry_price.map (· - ad)) ad)
    | _ => .error (.typeError "unexpected keyword argument")
  else if cfg.name = "my_stop_rules.static" then
    match cfg.params with
    | .staticParams bps =>
        .ok (.static entry_price trade_type bps
          (staticStopPrice entry_price trade_type bps))
    | _ => .error (.typeError "unexpected keyword argument")
  else .error (.moduleNotFoundError cfg.name)

/-- `make_profit` (`exec_rules/profit/factory.py`); `ConstantProfit.__init__`
sets `_level = entry_price + abs_diff`, `StaticProfit.__init__` sets
`_level = entry_price * (1 + trade_type * bps / 10000)`. -/
def make_profit (entry_price trade_type : List Int) (cfg : ProfitCfg) :
    Except PyError ProfitObj :=
  if cfg.name = "my_profit_rules.constant" then
    match cfg.params with
    | .constantParams ad =>
        .ok (.constant entry_price trade_type (entry_price.map (· + ad)) ad)
    | _ => .error (.typeError "unexpected keyword argument")
  else if cfg.name = "my_profit_rules.static" then
    match cfg.params with
    | .staticParams bps =>
        .ok (.static entry_price trade_type bps
          (staticProfitPrice entry_price trade_type bps))
    | _ => .error (.typeError "unexpected keyword argument")
  else .error (.moduleNotFoundError cfg.name)

/-- `make_datetime_rule` (`exec_rules/date_rules/factory.py`); the
`TimeIntervalRule` constructor rejects intervals with start after end. -/
def make_datetime_rule (cfg : DateCfg) : Except PyError DateObj :=
  if cfg.name = "my_date_rules.time_interval" then
    match cfg.params with
    | .timeIntervals ivs =>
        if ivs.any (fun p => decide (p.2 < p.1)) then .error (.valueError "Interval not valid")
        else .ok (.timeInterval ivs)
    | _ => .error (.typeError "unexpected keyword argument")
  else if cfg.name = "my_date_rules.day" then
    match cfg.params with
    | .daysToExclude days => .ok (.day days)
    | _ => .error (.typeError "unexpected keyword argument")
  else .error (.moduleNotFoundError cfg.name)

/-- `make_volume_rule` (`exec_rules/volume_rules/factory.py`); the
`VolumeInterval` constructor rejects bands with start after end. -/
def make_volume_rule (entry_vol trade_type : List Int) (cfg : VolCfg) :
    Except PyError VolObj :=
  if cfg.name = "my_volume_rules.interval" then
    if cfg.intervals.any (fun p => decide (p.2 < p.1)) then .error (.valueError "Interval not valid")
    else .ok (.interval entry_vol trade_type cfg.intervals)
  else .error (.moduleNotFoundError cfg.name)

/-- `make_event_rule` (`exec_rules/event_rules/factory.py`). -/
def make_event_rule (cfg : EventCfg) : Except PyError EventObj :=
  if cfg.name = "my_event_rules.earnings" then .ok (.earnings cfg.symbols)
  else .error (.moduleNotFoundError cfg.name)

/-! ## Serialized rule state and the load factories -/

/-- The state fields beyond the entry references in a serialized profit
rule's instance dictionary: `_level` and `abs_diff` for `ConstantProfit`,
`_level` and `bps` for `StaticProfit`. -/
inductive ProfitStateParams where
  | constantState (level : List Int) (abs_diff : Int)
  | staticState (bps level : List Int)
  deriving DecidableEq, Repr

/-- The serialized state of a profit rule: `ProfitRule.to_state` returns
`{'name': self.__class__.__name__, **self.__dict__}`. -/
structure ProfitState where
  name : String
  entry_price : List Int
  trade_type : List Int
  params : ProfitStateParams
  deriving DecidableEq, Repr

/-- `ProfitRule.to_state` (`exec_rules/profit/base.py`): the stored `name` is
the class `__name__`, and the remaining keys are the instance dictionary. -/
def ProfitObj.to_state : ProfitObj → ProfitState
  | .constant ep tt lvl ad => ⟨"ConstantProfit", ep, tt, .constantState lvl ad⟩
  | .static ep tt bps lvl => ⟨"StaticProfit", ep, tt, .staticState bps lvl⟩

/-- The profit-rule classes resolvable through the registry. -/
inductive ProfitClass where
  | constantProfit
  | staticProfit
  deriving DecidableEq, Repr

/-- `get_profit` (`exec_rules/profit/factory.py`): look the name up in the
registry populated by the template modules (keyed by module path); on a miss,
`__import__(name)` succeeds only for the template module paths, anything else
raises `ModuleNotFoundError`. -/
def get_profit (name : String) : Except PyError ProfitClass :=
  if name = "my_profit_rules.constant" then .ok .constantProfit
  else if name = "my_profit_rules.static" then .ok .staticProfit
  else .error (.moduleNotFoundError name)

/-- `load_profit` (`exec_rules/profit/factory.py`): resolve the class via
`get_profit(cfg.name)`, then hydrate a bare instance directly from the
remaining state fields (`cls.__new__` plus `__dict__.update`). -/
def load_profit (st : ProfitState) : Except PyError ProfitObj :=
  match get_profit st.name with
  | .error e => .error e
  | .ok .constantProfit =>
    match st.params with
    | .constantState lvl ad => .ok (.constant st.entry_price st.trade_type lvl ad)
    | _ => .error (.typeError "state fields do not match the class")
  | .ok .staticProfit =>
    match st.params with
    | .staticState bps lvl => .ok (.static st.entry_price st.trade_type bps lvl)
    | _ => .error (.typeError "state fields do not match the class")

/-- The state fields beyond the entry references in a serialized stop rule's
instance dictionary. -/
inductive StopStateParams where
  | constantState (level : List Int) (abs_diff : Int)
  | staticState (bps level : List Int)
  deriving DecidableEq, Repr

/-- The serialized state of a stop rule. -/
structure StopState where
  name : String
  entry_price : List Int
  trade_type : List Int
  params : StopStateParams
  deriving DecidableEq, Repr

/-- Modelled from the spec: `exec_rules/stop/base.py` (the `StopRule` base
class whose `to_state` the stop templates inherit) is absent from the
sources; per the spec, serialize must round-trip constructor parameters plus
mutated state, so the model stores under `name` the registry key with which
`load_stop` can resolve the class. -/
def StopObj.to_state : StopObj → StopState
  | .constant ep tt lvl ad =>
      ⟨"my_stop_rules.constant", ep, tt, .constantState lvl ad⟩
  | .static ep tt bps lvl =>
      ⟨"my_stop_rules.static", ep, tt, .staticState bps lvl⟩

/-- The stop-rule classes resolvable through the registry. -/
inductive StopClass where
  | constantStop
  | staticStop
  deriving DecidableEq, Repr

/-- `get_stop` (`exec_rules/stop/factory.py`): registry lookup by module
path, falling back to `__import__`. -/
def get_stop (name : String) : Except PyError StopClass :=
  if name = "my_stop_rules.constant" then .ok .constantStop
  else if name = "my_stop_rules.static" then .ok .staticStop
  else .error (.moduleNotFoundError name)

/-- `load_stop` (`exec_rules/stop/factory.py`): resolve via `get_stop`, then
hydrate a bare instance from the state fields. -/
def load_stop (st : StopState) : Except PyError StopObj :=
  match get_stop st.name with
  | .error e => .error e
  | .ok .constantStop =>
    match st.params with
    | .constantState lvl ad => .ok (.constant st.entry_price st.trade_type lvl ad)
    | _ => .error (.typeError "state fields do not match the class")
  | .ok .staticStop =>
    match st.params with
    | .staticState bps lvl => .ok (.static st.entry_price st.trade_type bps lvl)
    | _ => .error (.typeError "state fields do not match the class")

/-- The serialized state of a volume rule (`VolumeRule.to_state` stores the
class `__name__` plus the instance dictionary). -/
structure VolState where
  name : String
  entry_vol : List Int
  trade_type : List Int
  intervals : List (Int × Int)
  deriving DecidableEq, Repr

/-- `VolumeRule.to_state` (`exec_rules/volume_rules/base.py`): the stored
`name` is the class `__name__`. -/
def VolObj.to_state : VolObj → VolState
  | .interval ev tt ivs => ⟨"VolumeInterval", ev, tt, ivs⟩

/-- `get_volume_rule` (`exec_rules/volume_rules/factory.py`). -/
def get_volume_rule (name : String) : Except PyError Unit :=
  if name = "my_volume_rules.interval" then .ok ()
  else .error (.moduleNotFoundError name)

/-- `load_volume_rule` (`exec_rules/volume_rules/factory.py`). -/
def load_volume_rule (st : VolState) : Except PyError VolObj :=
  match get_volume_rule st.name with
  | .error e => .error e
  | .ok _ => .ok (.interval st.entry_vol st.trade_type st.intervals)

/-! ## The Trade entity (`src/tradekit/forward_engine/trade.py`) -/

/-- The `Trade` dataclass: trade details, the rule spec dictionaries, and the
rule instances built from them in `__post_init__`. -/
structure Trade where
  symbols : List String
  trade_id : String
  trade_type : List Int
  trade_capital : List Int
  entry_ts : Nat
  entry_price : List Int
  entry_vol : List Int
  stop_rule : StopCfg
  profit_rule : ProfitCfg
  date_rules : List DateCfg
  vol_rules : List VolCfg
  event_rules : List EventCfg
  timeout : Option Nat
  is_open : Bool
  stop : StopObj
  profit : ProfitObj
  dates : List DateObj
  vols : List VolObj
  events : List EventObj
  deriving DecidableEq, Repr

/-- `Trade.__init__` plus `__post_init__`: store the trade details and build
the rule instances from the spec dictionaries (stop, profit, then the volume,
datetime and event collections, in the order of `__post_init__`). -/
def Trade.make (symbols : List String) (trade_id : String)
    (trade_type trade_capital : List Int) (entry_ts : Nat)
    (entry_price entry_vol : List Int)
    (stop_rule : StopCfg) (profit_rule : ProfitCfg)
    (date_rules : List DateCfg) (vol_rules : List VolCfg)
    (event_rules : List EventCfg) (timeout : Option Nat) :
    Except PyError Trade :=
  match make_stop entry_price trade_type stop_rule with
  | .error e => .error e
  | .ok stop =>
    match make_profit entry_price trade_type profit_rule with
    | .error e => .error e
    | .ok profit =>
      match vol_rules.mapM (make_volume_rule entry_vol trade_type) with
      | .error e => .error e
      | .ok vols =>
        match date_rules.mapM make_datetime_rule with
        | .error e => .error e
        | .ok dates =>
          match event_rules.mapM make_event_rule with
          | .error e => .error e
          | .ok events =>
            .ok { symbols, trade_id, trade_type, trade_capital, entry_ts,
                  entry_price, entry_vol, stop_rule, profit_rule, date_rules,
                  vol_rules, event_rules, timeout, is_open := true,
                  stop, profit, dates, vols, events }

/-- `Trade.check_exit` exactly as written (`trade.py` lines 174-210): after
the early return for closed trades and the stop/profit updates, line 182
executes `self.dates.update(bar)`.  `self.dates` is a Python `list`, and
lists have no `update` method, so the call raises `AttributeError` before
any timeout, restriction or threshold logic can run. -/
def Trade.check_exit (t : Trade) (ts : Nat) (bar : Bar) :
    Except PyError (Bool × Option ExitReason) :=
  if t.is_open = false then .ok (false, none)
  else
    let _stop := t.stop.update bar
    let _profit := t.profit.update bar
    .error (.attributeError "list object has no attribute update")

/-- Modelled from the spec: the per-bar evaluation that `Trade.check_exit`
mandates, with the one correction the spec's design notes require — `update`
applied to every rule member individually instead of to the collection
objects.  The remainder is the decision chain of `trade.py` lines 186-210
verbatim: the timeout test `entry_ts + timeout < ts` first, then the
datetime, volume and event restriction gates, then stop before profit. -/
def Trade.check_exit_fixed (t : Trade) (ts : Nat) (bar : Bar) :
    Bool × Option ExitReason × Trade :=
  if t.is_open = false then (false, none, t)
  else
    let t' := { t with stop := t.stop.update bar,
                       profit := t.profit.update bar,
                       dates := t.dates.map (fun d => d.update bar),
                       events := t.events.map (fun e => e.update bar),
                       vols := t.vols.map (fun v => v.update bar) }
    let timeout_hit : Bool :=
      match t'.timeout with
      | some d => decide (t'.entry_ts + d < ts)
      | none => false
    if timeout_hit then (true, some .timeout, t')
    else if !(t'.dates.all (fun d => d.hit ts)) then (false, none, t')
    else if !(t'.vols.all (fun v => bar.volume.all (fun x => v.hit x))) then (false, none, t')
    else if !(t'.events.all (fun e => e.hit ts)) then (false, none, t')
    else if t'.stop.hit bar then (true, some .stop, t')
    else if t'.profit.hit bar then (true, some .profit, t')
    else (false, none, t')

/-- The dictionary produced by `Trade.to_state`: the construction parameters,
the serialized stop/profit/volume rule states, and the open flag (the
datetime and event rule instances are not serialized). -/
structure TradeState where
  symbols : List String
  trade_id : String
  trade_type : List Int
  trade_capital : List Int
  entry_ts : Nat
  entry_price : List Int
  entry_vol : List Int
  stop_rule : StopCfg
  profit_rule : ProfitCfg
  date_rules : List DateCfg
  vol_rules : List VolCfg
  event_rules : List EventCfg
  timeout : Option Nat
  stop_state : StopState
  profit_state : ProfitState
  vol_state : List VolState
  is_open : Bool
  deriving DecidableEq, Repr

/-- `Trade.to_state` (`trade.py` lines 93-117). -/
def Trade.to_state (t : Trade) : TradeState :=
  { symbols := t.symbols, trade_id := t.trade_id, trade_type := t.trade_type,
    trade_capital := t.trade_capital, entry_ts := t.entry_ts,
    entry_price := t.entry_price, entry_vol := t.entry_vol,
    stop_rule := t.stop_rule, profit_rule := t.profit_rule,
    date_rules := t.date_rules, vol_rules := t.vol_rules,
    event_rules := t.event_rules, timeout := t.timeout,
    stop_state := t.stop.to_state, profit_state := t.profit.to_state,
    vol_state := t.vols.map VolObj.to_state, is_open := t.is_open }

/-- `Trade.from_state` (`trade.py` lines 119-157): rebuild the dataclass from
the construction parameters (running `__post_init__`), then overwrite the
stop, profit and volume instances by hydrating them from the serialized
states via `load_stop` / `load_profit` / `load_volume_rule`, rebuild the
event and datetime instances from their spec dictionaries, and restore the
open flag. -/
def Trade.from_state (d : TradeState) : Except PyError Trade :=
  match Trade.make d.symbols d.trade_id d.trade_type d.trade_capital d.entry_ts
      d.entry_price d.entry_vol d.stop_rule d.profit_rule d.date_rules
      d.vol_rules d.event_rules d.timeout with
  | .error e => .error e
  | .ok trade =>
    match load_stop d.stop_state with
    | .error e => .error e
    | .ok stop =>
      match load_profit d.profit_state with
      | .error e => .error e
      | .ok profit =>
        match d.event_rules.mapM make_event_rule with
        | .error e => .error e
        | .ok events =>
          match d.date_rules.mapM make_datetime_rule with
          | .error e => .error e
          | .ok dates =>
            match d.vol_state.mapM load_volume_rule with
            | .error e => .error e
            | .ok vols =>
              .ok { trade with
                    stop := stop
                    profit := profit
                    events := events
                    dates := dates
                    vols := vols
                    is_open := d.is_open }

/-! ## The batch evaluator (`src/tradekit/backtest_engine/engine.py`) -/

/-- A row of the signals dataframe consumed by the batch engine. -/
structure SignalRow where
  name : String
  symbols : List String
  trade_type : List Int
  capital : List Int
  entry_ts : Nat
  timeout : Option Nat
  deriving DecidableEq, Repr

/-- The per-trade result dictionary returned by
`BacktestEngine.execute_trade_worker`; `exit_price` is a scalar because the
worker applies `.item()` to the Close row at the exit position (the entry
price, read without `.item()`, stays a per-symbol row). -/
structure TradeRecord where
  signal_id : String
  symbols : List String
  type : List Int
  capital : List Int
  entry_time : Nat
  exit_time : Nat
  entry_price : List Int
  exit_price : Int
  exit_reason : ExitReason
  deriving DecidableEq, Repr

/-- `pandas.Series.item()`: the single element of a length-one row;
any other length raises `ValueError`. -/
def seriesItem (l : List Int) : Except PyError Int :=
  match l with
  | [p] => .ok p
  | _ => .error (.valueError "can only convert an array of size 1 to a scalar")

/-- The index of a market-data frame: its list of bar timestamps. -/
def mdIndex (md : List Bar) : List Nat := md.map (·.ts)

/-- `timestamps.get_loc(start_ts)`: position of the exact timestamp match. -/
def entryIloc (md : List Bar) (sig : SignalRow) : Nat :=
  (mdIndex md).indexOf sig.entry_ts

/-- `np.searchsorted(..., side='left')` on a sorted index: the number of
index entries strictly below the probe. -/
def searchsortedLeft (l : List Nat) (v : Nat) : Nat :=
  l.countP (fun x => decide (x < v))

/-- The timeout position (`engine.py` lines 169-176): the signal timeout
added to the entry timestamp when provided, else the last index entry;
located with `searchsorted(..., 'left')` and clamped to the series end. -/
def timeoutIloc (md : List Bar) (sig : SignalRow) : Nat :=
  let timeout_ts :=
    match sig.timeout with
    | none => (mdIndex md).getLastD 0
    | some d => sig.entry_ts + d
  let t0 := searchsortedLeft (mdIndex md) timeout_ts
  if md.length ≤ t0 then md.length - 1 else t0

/-- `price_df.iloc[entry_iloc+1 : timeout_iloc+1]`: the post-entry window. -/
def tradeWindow (md : List Bar) (sig : SignalRow) : List Bar :=
  (md.take (timeoutIloc md sig + 1)).drop (entryIloc md sig + 1)

/-- The restriction permission mask (`engine.py` lines 184-185): every
datetime, event and volume `exit_mask` over the window, combined with
`np.logical_and.reduce`. -/
def rulesMask (dates : List DateObj) (events : List EventObj) (vols : List VolObj)
    (window : List Bar) : List Bool :=
  andReduce window.length
    ((dates.map (fun r => r.exit_mask window)) ++
     (events.map (fun r => r.exit_mask window)) ++
     (vols.map (fun r => r.exit_mask window)))

/-- `np.argmax` over a boolean array: the position of the first `True`, or
`0` when every entry is `False`. -/
def argmaxBool (l : List Bool) : Nat :=
  if l.any id then l.findIdx id else 0

/-- `BacktestEngine.execute_trade_worker` (`engine.py` lines 109-217): hard
error when the entry timestamp is not in the index; entry price/volume read
at the entry position; stop, profit and volume rules built from the strategy
spec dictionaries; hard error when the post-entry window is empty; the
stop/profit exit masks conjoined with the restriction permission mask; exit
at the first masked hit (reason by the two sequential `if` assignments,
profit overwriting stop) or, when no mask position is hit, at the timeout
position with reason `timeout`; the exit price is
`price_df.Close.iloc[exit_iloc].item()` — the `.item()` scalar conversion of
the Close row at the exit position, which raises `ValueError` whenever that
row does not hold exactly one symbol. -/
def execute_trade_worker (md : List Bar) (dates : List DateObj)
    (events : List EventObj) (stop_rule : StopCfg) (profit_rule : ProfitCfg)
    (vol_rules : List VolCfg) (sig : SignalRow) :
    Except PyError TradeRecord :=
  if ((mdIndex md).contains sig.entry_ts) = false then
    .error (.valueError "No price data available for entry date")
  else
    let entry_iloc := entryIloc md sig
    let entry_price := (md.getD entry_iloc default).close
    let entry_vol := (md.getD entry_iloc default).volume
    match make_stop entry_price sig.trade_type stop_rule with
    | .error e => .error e
    | .ok stop =>
      match make_profit entry_price sig.trade_type profit_rule with
      | .error e => .error e
      | .ok profit =>
        match vol_rules.mapM (make_volume_rule entry_vol sig.trade_type) with
        | .error e => .error e
        | .ok vols =>
          let timeout_iloc := timeoutIloc md sig
          let window := tradeWindow md sig
          if window.isEmpty then
            .error (.valueError "Timeout window is too short")
          else
            let rules_mask := rulesMask dates events vols window
            let stop_hit := (stop.exit_mask window).zipWith and rules_mask
            let profit_hit := (profit.exit_mask window).zipWith and rules_mask
            let exit_mask := stop_hit.zipWith or profit_hit
            if exit_mask.any id then
              let exit_delta := argmaxBool exit_mask
              let exit_iloc := entry_iloc + exit_delta + 1
              let r1 : Option ExitReason :=
                if stop_hit.getD exit_delta false then some .stop else none
              let r2 : Option ExitReason :=
                if profit_hit.getD exit_delta false then some .profit else r1
              match r2 with
              | none => .error (.nameError "exit_reason")
              | some reason =>
                  match seriesItem (md.getD exit_iloc default).close with
                  | .error e => .error e
                  | .ok exit_price =>
                      .ok { signal_id := sig.name, symbols := sig.symbols,
                            type := sig.trade_type, capital := sig.capital,
                            entry_time := sig.entry_ts,
                            exit_time := (mdIndex md).getD exit_iloc 0,
                            entry_price := entry_price,
                            exit_price := exit_price,
                            exit_reason := reason }
            else
              match seriesItem (md.getD timeout_iloc default).close with
              | .error e => .error e
              | .ok exit_price =>
                  .ok { signal_id := sig.name, symbols := sig.symbols,
                        type := sig.trade_type, capital := sig.capital,
                        entry_time := sig.entry_ts,
                        exit_time := (mdIndex md).getD timeout_iloc 0,
                        entry_price := entry_price,
                        exit_price := exit_price,
                        exit_reason := .timeout }

/-- The required columns of the signals dataframe
(`BacktestEngine._validate_signal`). -/
def requiredSignalColumns : List String :=
  ["symbols", "trade_type", "capital", "entry_ts", "timeout"]

/-- `BacktestEngine._validate_signal` (`engine.py` lines 68-90): `ValueError`
when a required column is missing, `TypeError` when `entry_ts` is not
datetime-like. -/
def validate_signal (cols : List String) (entry_ts_is_datetime : Bool) :
    Except PyError Unit :=
  let missing := requiredSignalColumns.filter (fun c => (cols.contains c) = false)
  if missing.isEmpty = false then .error (.valueError "Missing columns")
  else if entry_ts_is_datetime = false then
    .error (.typeError "entry_ts must be datetime-like")
  else .ok ()

/-- `BacktestEngine.run` (`engine.py` lines 219-306): with the signals the
strategy produced for the period, raise `ValueError` when there are none
(before the worker pool is entered, outside the `try` block, so it
propagates); validate the signal columns (also outside the `try`); then fan
the workers out over the signals.  A worker exception is caught by the
`except` clause: the engine logs, sets the shutdown flag and falls off the
end, returning `None` rather than a partial result set. -/
def BacktestEngine.run (cols : List String) (entry_ts_is_datetime : Bool)
    (signals : List SignalRow) (md : List Bar) (dates : List DateObj)
    (events : List EventObj) (stop_rule : StopCfg) (profit_rule : ProfitCfg)
    (vol_rules : List VolCfg) :
    Except PyError (Option (List TradeRecord)) :=
  if signals.isEmpty then
    .error (.valueError "There are no signals for the chosen period")
  else
    match validate_signal cols entry_ts_is_datetime with
    | .error e => .error e
    | .ok _ =>
      match signals.mapM (execute_trade_worker md dates events stop_rule
          profit_rule vol_rules) with
      | .ok rs => .ok (some rs)
      | .error _ => .ok none

/-! ## The live engine (`src/tradekit/forward_engine/engine.py`) -/

/-- The strategy attributes the engines read: the rule spec dictionaries. -/
structure Strategy where
  stop_rule : StopCfg
  profit_rule : ProfitCfg
  date_rules : List DateCfg
  vol_rules : List VolCfg
  event_rules : List EventCfg
  deriving DecidableEq, Repr

/-- A live signal row (`pd.Series`): the row label `name` is always present;
the data fields are optional because accessing a missing field of a series
raises `AttributeError`. -/
structure LiveSignalRow where
  name : String
  symbols : Option (List String)
  trade_type : Option (List Int)
  capital : Option (List Int)
  entry_ts : Option Nat
  timeout : Option (Option Nat)
  deriving DecidableEq, Repr

/-- One line of the closed-trade record written by
`ForwardEngine._exit_trade`. -/
structure ExitRecord where
  symbols : List String
  signal_id : String
  type : List Int
  capital : List Int
  entry_time : Nat
  exit_time : Nat
  entry_price : List Int
  exit_price : List Int
  exit_reason : ExitReason
  deriving DecidableEq, Repr

/-- The mutable state of a `ForwardEngine`: its name, strategy, the
active-trade dictionary (keyed by the id the engine stores trades under) and
the closed-trade list. -/
structure ForwardEngineState where
  name : String
  strategy : Strategy
  active_trades : List (String × Trade)
  closed_trades : List ExitRecord
  deriving DecidableEq, Repr

/-- Python dictionary assignment `d[k] = v`: replace the binding when the key
exists, else append it. -/
def dictSet {β : Type} : List (String × β) → String → β → List (String × β)
  | [], k, v => [(k, v)]
  | (k', v') :: rest, k, v =>
      if k' = k then (k, v) :: rest else (k', v') :: dictSet rest k v

/-- Python dictionary deletion `del d[k]`: `KeyError` when the key is
absent. -/
def dictDel {β : Type} : List (String × β) → String → Except PyError (List (String × β))
  | [], k => .error (.keyError k)
  | (k', v') :: rest, k =>
      if k' = k then .ok rest
      else
        match dictDel rest k with
        | .error e => .error e
        | .ok rest' => .ok ((k', v') :: rest')

/-- Python dictionary lookup `d.get(k)`. -/
def dictGet {β : Type} : List (String × β) → String → Option β
  | [], _ => none
  | (k', v') :: rest, k => if k' = k then some v' else dictGet rest k

/-- `ForwardEngine._open_trade` (`engine.py` lines 72-109): read the signal
fields (`trade_type` first on line 88, then the keyword arguments of the
`Trade` constructor in order — a missing field raises `AttributeError`
before any `Trade` exists), build the `Trade` with
`trade_id = self.name + "_" + str(signal_row.name)` and the strategy's rule
specs, and store it in the active-trade dictionary under the key
`signal_row.name`. -/
def ForwardEngine.open_trade (st : ForwardEngineState) (sig : LiveSignalRow)
    (bar : Bar) : Except PyError ForwardEngineState :=
  match sig.trade_type with
  | none => .error (.attributeError "trade_type")
  | some tt =>
    match sig.symbols with
    | none => .error (.attributeError "symbols")
    | some symbols =>
      match sig.capital with
      | none => .error (.attributeError "capital")
      | some capital =>
        match sig.entry_ts with
        | none => .error (.attributeError "entry_ts")
        | some entry_ts =>
          match sig.timeout with
          | none => .error (.attributeError "timeout")
          | some timeout =>
            match Trade.make symbols (st.name ++ "_" ++ sig.name) tt capital
                entry_ts bar.close bar.volume st.strategy.stop_rule
                st.strategy.profit_rule st.strategy.date_rules
                st.strategy.vol_rules st.strategy.event_rules timeout with
            | .error e => .error e
            | .ok trade =>
                .ok { st with
                      active_trades := dictSet st.active_trades sig.name trade }

/-- `ForwardEngine._exit_trade` (`engine.py` lines 127-176): build the
closed-trade record and append it to `closed_trades` (notifier failures are
swallowed and the jsonl append has no effect on engine state), then execute
`del self.active_trades[trade.trade_id]` — a deletion keyed by the trade id,
which raises `KeyError` when no entry is stored under that key.  In Python
the `closed_trades.append` has already mutated the list when the deletion
raises. -/
def ForwardEngine.exit_trade (st : ForwardEngineState) (trade : Trade)
    (reason : ExitReason) (ts : Nat) (bar : Bar) :
    Except PyError ForwardEngineState :=
  let record : ExitRecord :=
    { symbols := trade.symbols, signal_id := trade.trade_id,
      type := trade.trade_type, capital := trade.trade_capital,
      entry_time := trade.entry_ts, exit_time := ts,
      entry_price := trade.entry_price, exit_price := bar.close,
      exit_reason := reason }
  let closed := st.closed_trades ++ [record]
  match dictDel st.active_trades trade.trade_id with
  | .error e => .error e
  | .ok remaining =>
      .ok { st with closed_trades := closed, active_trades := remaining }

/-- `ForwardEngine._update_trades` (`engine.py` lines 111-125): iterate over
the active trades; call `check_exit` on each; when it reports an exit, set
`is_open = False` on the trade object and run `_exit_trade`. -/
def ForwardEngine.update_trades (st : ForwardEngineState) (ts : Nat) (bar : Bar) :
    Except PyError ForwardEngineState :=
  go st st.active_trades
where
  /-- The loop body over the snapshot of dictionary items. -/
  go (st : ForwardEngineState) : List (String × Trade) →
      Except PyError ForwardEngineState
    | [] => .ok st
    | (k, trade) :: rest =>
      match trade.check_exit ts bar with
      | .error e => .error e
      | .ok (check, reason) =>
        if check then
          let trade' := { trade with is_open := false }
          let st' := { st with active_trades := dictSet st.active_trades k trade' }
          match ForwardEngine.exit_trade st' trade'
              (reason.getD .timeout) ts bar with
          | .error e => .error e
          | .ok st'' => go st'' rest
        else go st rest

/-! ## Checkpoint persistence (`ForwardEngine.save_state`) -/

/-- The file-system operations issued by `ForwardEngine.save_state`:
truncating-open of the temporary file, appending a chunk of the pickled
snapshot, and `os.replace(tmp_path, path)`. -/
inductive CkptOp where
  | openTmp
  | writeTmp (chunk : List Nat)
  | replaceTmp
  deriving DecidableEq, Repr

/-- The two paths `save_state` touches: the temporary file and the
checkpoint path, each either absent or holding bytes. -/
structure CkptFs where
  tmp : Option (List Nat)
  ckpt : Option (List Nat)
  deriving DecidableEq, Repr

/-- The effect of one file-system operation: `open(tmp, 'wb')` truncates the
temporary file, a write appends to it, and `os.replace` atomically moves the
temporary file over the checkpoint path. -/
def ckptStep (fs : CkptFs) : CkptOp → CkptFs
  | .openTmp => { fs with tmp := some [] }
  | .writeTmp chunk => { fs with tmp := some ((fs.tmp.getD []) ++ chunk) }
  | .replaceTmp => { tmp := none, ckpt := fs.tmp }

/-- `ForwardEngine.save_state` (`engine.py` lines 180-199) as its sequence of
file-system operations: open the temporary file, stream the pickled snapshot
into it chunk by chunk, then rename it over the checkpoint path. -/
def save_state_ops (chunks : List (List Nat)) : List CkptOp :=
  .openTmp :: (chunks.map .writeTmp) ++ [.replaceTmp]

/-- Run a sequence of file-system operations from a starting state. -/
def runCkptOps (fs : CkptFs) (ops : List CkptOp) : CkptFs :=
  ops.foldl ckptStep fs

/-! ## Specification-side functions and helper lemmas -/

instance {ε α : Type} [DecidableEq ε] [DecidableEq α] :
    DecidableEq (Except ε α) := fun x y =>
  match x, y with
  | .ok a, .ok b =>
      if h : a = b then isTrue (by rw [h])
      else isFalse (fun hc => by cases hc; exact h rfl)
  | .error a, .error b =>
      if h : a = b then isTrue (by rw [h])
      else isFalse (fun hc => by cases hc; exact h rfl)
  | .ok _, .error _ => isFalse (fun hc => by cases hc)
  | .error _, .ok _ => isFalse (fun hc => by cases hc)

/-- Specification-side: the first position of a boolean mask that is true
(the "earliest-wins" exit position of the spec), defined independently of the
`np.argmax` encoding used by the batch evaluator. -/
def firstTrue : List Bool → Option Nat
  | [] => none
  | b :: bs => if b then some 0 else (firstTrue bs).map (· + 1)

theorem firstTrue_eq_none {l : List Bool} (h : l.any id = false) :
    firstTrue l = none := by
  induction l with
  | nil => rfl
  | cons b bs ih =>
    simp only [List.any_cons, Bool.or_eq_false_iff, id] at h
    simp [firstTrue, h.1, ih h.2]

theorem firstTrue_eq_argmax {l : List Bool} (h : l.any id = true) :
    firstTrue l = some (argmaxBool l) := by
  unfold argmaxBool
  rw [if_pos h]
  induction l with
  | nil => simp at h
  | cons b bs ih =>
    by_cases hb : b = true
    · simp [firstTrue, hb, List.findIdx_cons]
    · simp only [Bool.not_eq_true] at hb
      subst hb
      simp only [List.any_cons, Bool.false_or, id] at h
      simp [firstTrue, List.findIdx_cons, ih h]

theorem firstTrue_getD {l : List Bool} {d : Nat} (h : firstTrue l = some d) :
    l.getD d false = true := by
  induction l generalizing d with
  | nil => simp [firstTrue] at h
  | cons b bs ih =>
    by_cases hb : b = true
    · simp only [firstTrue, hb, if_true, Option.some.injEq] at h
      subst h
      simpa using hb
    · simp only [Bool.not_eq_true] at hb
      subst hb
      simp only [firstTrue] at h
      cases hfb : firstTrue bs with
      | none => rw [hfb] at h; simp at h
      | some d' =>
        rw [hfb] at h
        simp at h
        subst h
        simpa using ih hfb

theorem zipWith_or_getD_true {a b : List Bool} {d : Nat}
    (h : (a.zipWith or b).getD d false = true) :
    a.getD d false = true ∨ b.getD d false = true := by
  induction a generalizing b d with
  | nil => simp [List.zipWith] at h
  | cons x xs ih =>
    cases b with
    | nil => simp [List.zipWith] at h
    | cons y ys =>
      cases d with
      | zero =>
        simp only [List.zipWith, List.getD_cons_zero, Bool.or_eq_true] at h
        simpa using h
      | succ d' =>
        simp only [List.zipWith, List.getD_cons_succ] at h ⊢
        exact ih h

/-! ## Concrete scenario data

The spec's concrete scenario: a long entry at close 100 with a constant stop
2 below entry (level 98) and a constant profit 5 above entry (level 105), no
restrictions. -/

/-- The `ConstantStop` spec dictionary with `abs_diff = 2`. -/
def constStopCfg : StopCfg := ⟨"my_stop_rules.constant", .constantParams 2⟩

/-- The `ConstantProfit` spec dictionary with `abs_diff = 5`. -/
def constProfitCfg : ProfitCfg :=
  ⟨"my_profit_rules.constant", .constantParams 5⟩

/-- A strategy carrying the two price-rule specs and no restrictions. -/
def demoStrategy : Strategy := ⟨constStopCfg, constProfitCfg, [], [], []⟩

/-- The trade of the concrete scenario, as built by an engine named `fwd`
from a signal labelled `0`: entry at timestamp 0, entry price 100, stop
level 98, profit level 105, timeout 10 bars. -/
def demoTrade : Trade :=
  { symbols := ["AAPL"], trade_id := "fwd_0", trade_type := [1],
    trade_capital := [1000], entry_ts := 0, entry_price := [100],
    entry_vol := [10], stop_rule := constStopCfg,
    profit_rule := constProfitCfg, date_rules := [], vol_rules := [],
    event_rules := [], timeout := some 10, is_open := true,
    stop := .constant [100] [1] [98] 2, profit := .constant [100] [1] [105] 5,
    dates := [], vols := [], events := [] }

/-- The scenario's first post-entry bar: High 104, Low 99. -/
def demoBar1 : Bar := ⟨1, [99], [104], [100], [10]⟩

/-- A flat bar at price 100 (touches no threshold). -/
def flatBar (t : Nat) : Bar := ⟨t, [100], [100], [100], [10]⟩

/-! ## C1 -/

/-- C1: the claim states that `Trade.check_exit` calls `update(bar)` on every
configured rule instance individually and completes without raising.  On the
code this fails for every open trade: `trade.py` line 182 invokes `update` on
the `dates` list object itself (likewise lines 183-184 for `events` and
`vols`), and Python lists have no `update` method, so `check_exit` raises
`AttributeError` on the concrete scenario trade at its first bar. -/
theorem check_exit_raises_attribute_error :
    Trade.check_exit demoTrade 1 demoBar1 =
      .error (.attributeError "list object has no attribute update") := by
  rfl

/-! ## C2 -/

/-- A `TimeIntervalRule` embargoing 09:00-10:00 (minutes 540-600). -/
def morningEmbargo : DateObj := .timeInterval [(540, 600)]

/-- A bar at 09:30 (minute 570 of day 0). -/
def bar0930 : Bar := ⟨570, [100], [100], [100], [10]⟩

/-- The scenario's stop rule instance (level 98). -/
def demoStop : StopObj := .constant [100] [1] [98] 2

/-- A bar whose Low touches the stop level 98 but whose Close stays at 100. -/
def barLowTouch : Bar := ⟨1, [98], [100], [100], [10]⟩

/-- C2: the claim `exit_mask(window)[i] == hit(window[i])` fails on the code
in both cited ways.  `TimeIntervalRule` flips boolean polarity: at 09:30
inside the configured interval, `hit` returns `False` while `exit_mask`
marks `True`.  `ConstantStop` compares different price fields with different
strictness: on a bar with Low = 98 (touching the level) and Close = 100,
`hit` (Low against level, non-strict) is `True` while `exit_mask`
(Close strictly below `entry - type*abs_diff`) is `False`. -/
theorem exit_mask_hit_pointwise_mismatch :
    (DateObj.hit morningEmbargo bar0930.ts = false ∧
     DateObj.exit_mask morningEmbargo [bar0930] = [true]) ∧
    (StopObj.hit demoStop barLowTouch = true ∧
     StopObj.exit_mask demoStop [barLowTouch] = [false]) := by
  decide

/-! ## C3 -/

/-- The `StaticStop` spec dictionary with `bps = [200]` (2 percent: level 98
off an entry of 100). -/
def staticStopCfg : StopCfg := ⟨"my_stop_rules.static", .staticParams [200]⟩

/-- The `StaticProfit` spec dictionary with `bps = [500]` (5 percent: level
105 off an entry of 100). -/
def staticProfitCfg : ProfitCfg :=
  ⟨"my_profit_rules.static", .staticParams [500]⟩

/-- A single-symbol long trade (entry 100) with the static stop/profit rules
(stop level 98, profit level 105). -/
def staticTrade : Trade :=
  { symbols := ["AAPL"], trade_id := "fwd_1", trade_type := [1],
    trade_capital := [1000], entry_ts := 0, entry_price := [100],
    entry_vol := [10], stop_rule := staticStopCfg,
    profit_rule := staticProfitCfg, date_rules := [], vol_rules := [],
    event_rules := [], timeout := some 2, is_open := true,
    stop := .static [100] [1] [200] [980000],
    profit := .static [100] [1] [500] [1050000],
    dates := [], vols := [], events := [] }

/-- Bar 1 of the simultaneous-trigger scenario (the spec's concrete
scenario): Low 97 pierces the stop level 98 and High 106 pierces the profit
level 105 on the same bar. -/
def staticBar1 : Bar := ⟨1, [97], [106], [100], [10]⟩

/-- The market data of the simultaneous-trigger scenario. -/
def staticMd : List Bar := [flatBar 0, staticBar1, flatBar 2]

/-- The signal of the simultaneous-trigger scenario. -/
def staticSig : SignalRow := ⟨"1", ["AAPL"], [1], [1000], 0, some 2⟩

/-- C3: the claim states that both evaluators resolve a simultaneous
stop/profit trigger by the same fixed precedence rule.  On the code they
differ: with the static stop/profit rules (whose masks test Low and High),
bar 1 with Low 97 / High 106 makes the stop and profit masks both true on
the first triggering bar of a single-symbol trade (so the `.item()` scalar
conversion succeeds); the batch evaluator's two sequential `if` assignments
(`engine.py` lines 197-200) let profit overwrite stop and it returns
`profit`, while the incremental decision chain (`trade.py` lines 202-208,
run here with the spec-mandated per-member update correction) tests stop
first and returns `stop`. -/
theorem simultaneous_trigger_precedence_differs :
    execute_trade_worker staticMd [] [] staticStopCfg staticProfitCfg []
        staticSig =
      .ok ⟨"1", ["AAPL"], [1], [1000], 0, 1, [100], 100, .profit⟩ ∧
    (Trade.check_exit_fixed staticTrade 1 staticBar1).1 = true ∧
    (Trade.check_exit_fixed staticTrade 1 staticBar1).2.1 = some .stop := by
  decide

/-! ## C4 -/

/-- Six flat bars at price 100 (timestamps 0-5): no threshold ever hit. -/
def flatMd : List Bar :=
  [flatBar 0, flatBar 1, flatBar 2, flatBar 3, flatBar 4, flatBar 5]

/-- A signal entering at timestamp 0 with a 3-bar timeout. -/
def timeoutSig : SignalRow := ⟨"4", ["AAPL"], [1], [1000], 0, some 3⟩

/-- The scenario trade with a 3-bar timeout. -/
def timeoutTrade : Trade := { demoTrade with timeout := some 3 }

/-- C4: the claim states that with a 3-bar timeout and no threshold crossed,
both evaluators close with reason `timeout` exactly at bar 3.  The batch
evaluator does (exit time 3).  The incremental evaluator's timeout test
(`trade.py` line 187) is the strict `entry_ts + timeout < ts`, so at bar 3 it
does not close and it first reports the timeout at bar 4 — shown here on the
spec-mandated per-member-update variant, the as-written `check_exit` having
already raised before the timeout test (C1). -/
theorem timeout_fires_one_bar_late_incrementally :
    execute_trade_worker flatMd [] [] constStopCfg constProfitCfg []
        timeoutSig = .ok ⟨"4", ["AAPL"], [1], [1000], 0, 3, [100], 100,
                          .timeout⟩ ∧
    (Trade.check_exit_fixed timeoutTrade 3 (flatBar 3)).1 = false ∧
    (Trade.check_exit_fixed timeoutTrade 3 (flatBar 3)).2.1 = none ∧
    (Trade.check_exit_fixed timeoutTrade 4 (flatBar 4)).1 = true ∧
    (Trade.check_exit_fixed timeoutTrade 4 (flatBar 4)).2.1 =
      some .timeout := by
  decide

/-! ## C5 -/

/-- A live signal row labelled `0` carrying all required fields. -/
def liveSig : LiveSignalRow :=
  ⟨"0", some ["AAPL"], some [1], some [1000], some 0, some (some 10)⟩

/-- The bar at which the live trade is opened. -/
def liveBar0 : Bar := ⟨0, [100], [100], [100], [10]⟩

/-- The fresh state of a live engine named `fwd`. -/
def engineStart : ForwardEngineState := ⟨"fwd", demoStrategy, [], []⟩

/-- The engine state after opening the trade: the active-trade dictionary
holds the trade under the signal label `0`, while the trade's own id is
`fwd_0`. -/
def engineAfterOpen : ForwardEngineState :=
  ⟨"fwd", demoStrategy, [("0", demoTrade)], []⟩

/-- C5: the claim states that whenever an exit is reported the engine
appends one closed-trade record and removes the trade from the active set.
On the code the removal is impossible: `_open_trade` stores the trade under
the key `signal_row.name` (`"0"`), but `_exit_trade` executes
`del self.active_trades[trade.trade_id]` with the key `"fwd_0"`
(= engine name + `_` + signal label), which is not in the dictionary, so the
deletion raises `KeyError` and the trade is never removed (in Python the
record append has already happened, and the live loop then crashes). -/
theorem exit_trade_removal_raises_key_error :
    ForwardEngine.open_trade engineStart liveSig liveBar0 =
      .ok engineAfterOpen ∧
    demoTrade.trade_id = "fwd_0" ∧
    dictGet engineAfterOpen.active_trades "fwd_0" = none ∧
    ForwardEngine.exit_trade engineAfterOpen demoTrade .profit 2 (flatBar 2) =
      .error (.keyError "fwd_0") := by
  decide

/-! ## C7 -/

/-- C7: the claim states that `from_state(to_state(trade))` restores a trade
whose replayed exit decisions match the original.  On the code the restore
step itself raises: `ProfitRule.to_state` stores the class `__name__`
(`ConstantProfit`) under `name`, but `load_profit` resolves that name
through a registry keyed by template module path
(`my_profit_rules.constant`), so `get_profit` falls back to
`__import__("ConstantProfit")` and raises `ModuleNotFoundError`; no replay
can take place. -/
theorem trade_state_roundtrip_raises :
    (demoTrade.to_state).profit_state.name = "ConstantProfit" ∧
    load_profit (demoTrade.to_state).profit_state =
      .error (.moduleNotFoundError "ConstantProfit") ∧
    Trade.from_state (demoTrade.to_state) =
      .error (.moduleNotFoundError "ConstantProfit") := by
  decide

/-! ## C8 -/

/-- C8: each of the three data-availability conditions is a hard error.  The
batch worker raises when no bar exists at the signal's entry timestamp
(`engine.py` lines 151-152) and when the post-entry-to-timeout window slice
is empty (`engine.py` lines 180-181), and the batch run raises when the
strategy produced zero signals for the period (`engine.py` lines 274-276,
outside the `try` block, so the error propagates and no empty success is
returned). -/
theorem data_availability_hard_errors :
    (∀ (md : List Bar) (dates : List DateObj) (events : List EventObj)
        (sr : StopCfg) (pr : ProfitCfg) (vr : List VolCfg) (sig : SignalRow),
        ((mdIndex md).contains sig.entry_ts) = false →
        execute_trade_worker md dates events sr pr vr sig =
          .error (.valueError "No price data available for entry date")) ∧
    (∀ (md : List Bar) (dates : List DateObj) (events : List EventObj)
        (sr : StopCfg) (pr : ProfitCfg) (vr : List VolCfg) (sig : SignalRow),
        ((mdIndex md).contains sig.entry_ts) = true →
        tradeWindow md sig = [] →
        ∃ e, execute_trade_worker md dates events sr pr vr sig = .error e) ∧
    (∀ (cols : List String) (dtf : Bool) (md : List Bar)
        (dates : List DateObj) (events : List EventObj) (sr : StopCfg)
        (pr : ProfitCfg) (vr : List VolCfg),
        BacktestEngine.run cols dtf [] md dates events sr pr vr =
          .error (.valueError "There are no signals for the chosen period")) := by
  refine ⟨?_, ?_, ?_⟩
  · intro md dates events sr pr vr sig hmem
    simp only [execute_trade_worker]
    split
    · rfl
    · rename_i h
      exact absurd hmem h
  · intro md dates events sr pr vr sig hmem hwin
    simp only [execute_trade_worker, hmem]
    cases hs : make_stop (md.getD (entryIloc md sig) default).close
        sig.trade_type sr with
    | error e => exact ⟨e, by simp⟩
    | ok stop =>
      cases hp : make_profit (md.getD (entryIloc md sig) default).close
          sig.trade_type pr with
      | error e => exact ⟨e, by simp⟩
      | ok profit =>
        cases hv : vr.mapM (make_volume_rule
            (md.getD (entryIloc md sig) default).volume sig.trade_type) with
        | error e => exact ⟨e, by simp⟩
        | ok vols => exact ⟨.valueError "Timeout window is too short",
            by simp [hwin]⟩
  · intro cols dtf md dates events sr pr vr
    simp [BacktestEngine.run]

/-- A signal whose entry timestamp 7 appears in no market data. -/
def orphanSig : SignalRow := ⟨"w1", ["AAPL"], [1], [1000], 7, some 3⟩

/-- A signal whose post-entry window is empty (entry at the last bar). -/
def lastBarSig : SignalRow := ⟨"w2", ["AAPL"], [1], [1000], 0, some 0⟩

/-- Witness for C8 at concrete inputs: an entry timestamp absent from the
data, an empty post-entry window, and an empty signal list. -/
theorem data_availability_hard_errors_witness :
    (((mdIndex [flatBar 0]).contains orphanSig.entry_ts) = false ∧
      execute_trade_worker [flatBar 0] [] [] constStopCfg constProfitCfg []
        orphanSig =
        .error (.valueError "No price data available for entry date")) ∧
    (((mdIndex [flatBar 0]).contains lastBarSig.entry_ts) = true ∧
      tradeWindow [flatBar 0] lastBarSig = [] ∧
      (∃ e, execute_trade_worker [flatBar 0] [] [] constStopCfg constProfitCfg
        [] lastBarSig = .error e)) ∧
    BacktestEngine.run ["symbols"] true [] [flatBar 0] [] [] constStopCfg
        constProfitCfg [] =
      .error (.valueError "There are no signals for the chosen period") :=
  ⟨⟨by decide,
    data_availability_hard_errors.1 [flatBar 0] [] [] constStopCfg
      constProfitCfg [] orphanSig (by decide)⟩,
   ⟨by decide, by decide,
    data_availability_hard_errors.2.1 [flatBar 0] [] [] constStopCfg
      constProfitCfg [] lastBarSig (by decide) (by decide)⟩,
   data_availability_hard_errors.2.2 ["symbols"] true [flatBar 0] [] []
     constStopCfg constProfitCfg []⟩

/-! ## C9 -/

/-- C9: a signal missing one of the required fields (`symbols`,
`trade_type`, `capital`, `entry_ts`) is rejected with an error before any
`Trade` is created, in both modes.  In batch mode `_validate_signal` raises
`ValueError` for a missing column before the worker pool (and any rule
construction) runs.  In live mode `_open_trade` reads each field off the
signal row before the `Trade` constructor is entered, so a missing field
raises `AttributeError` first and no trade is stored. -/
theorem missing_signal_fields_rejected :
    (∀ (cols : List String) (dtf : Bool) (signals : List SignalRow)
        (md : List Bar) (dates : List DateObj) (events : List EventObj)
        (sr : StopCfg) (pr : ProfitCfg) (vr : List VolCfg) (c : String),
        c ∈ ["symbols", "trade_type", "capital", "entry_ts"] →
        cols.contains c = false → signals ≠ [] →
        BacktestEngine.run cols dtf signals md dates events sr pr vr =
          .error (.valueError "Missing columns")) ∧
    (∀ (st : ForwardEngineState) (sig : LiveSignalRow) (bar : Bar),
        (sig.symbols = none ∨ sig.trade_type = none ∨ sig.capital = none ∨
          sig.entry_ts = none) →
        ∃ e, ForwardEngine.open_trade st sig bar = .error e) := by
  constructor
  · intro cols dtf signals md dates events sr pr vr c hc hmiss hne
    have hcr : c ∈ requiredSignalColumns := by
      simp only [requiredSignalColumns]
      simp only [List.mem_cons, List.not_mem_nil, or_false] at hc
      rcases hc with h | h | h | h <;> simp [h]
    have hmemf : c ∈ requiredSignalColumns.filter
        (fun s => decide ((cols.contains s) = false)) :=
      List.mem_filter.2 ⟨hcr, by simpa using hmiss⟩
    have hE : (requiredSignalColumns.filter
        (fun s => decide ((cols.contains s) = false))).isEmpty = false := by
      cases hm : requiredSignalColumns.filter
          (fun s => decide ((cols.contains s) = false)) with
      | nil => rw [hm] at hmemf; simp at hmemf
      | cons a l => rfl
    have h0 : signals.isEmpty = false := by
      cases signals with
      | nil => exact absurd rfl hne
      | cons a l => rfl
    have h1 : validate_signal cols dtf =
        .error (.valueError "Missing columns") := by
      simp only [validate_signal]
      rw [if_pos hE]
    simp only [BacktestEngine.run]
    rw [if_neg (by simp [h0]), h1]
  · intro st sig bar h
    rw [ForwardEngine.open_trade]
    cases htt : sig.trade_type with
    | none => exact ⟨_, rfl⟩
    | some tt =>
      cases hsy : sig.symbols with
      | none => exact ⟨_, rfl⟩
      | some sy =>
        cases hca : sig.capital with
        | none => exact ⟨_, rfl⟩
        | some ca =>
          cases het : sig.entry_ts with
          | none => exact ⟨_, rfl⟩
          | some et =>
            rcases h with h | h | h | h <;> simp_all

/-- A live signal row with no `entry_ts` field. -/
def noEntryTsSig : LiveSignalRow :=
  ⟨"9", some ["AAPL"], some [1], some [1000], none, some (some 10)⟩

/-- Witness for C9 at concrete inputs: a signals frame without the `capital`
column and a live signal row without `entry_ts`. -/
theorem missing_signal_fields_rejected_witness :
    ((["symbols", "trade_type", "entry_ts", "timeout"].contains "capital")
        = false ∧
      BacktestEngine.run ["symbols", "trade_type", "entry_ts", "timeout"]
        true [orphanSig] [flatBar 0] [] [] constStopCfg constProfitCfg [] =
        .error (.valueError "Missing columns")) ∧
    (noEntryTsSig.entry_ts = none ∧
      ∃ e, ForwardEngine.open_trade engineStart noEntryTsSig liveBar0 =
        .error e) :=
  ⟨⟨by decide,
    missing_signal_fields_rejected.1
      ["symbols", "trade_type", "entry_ts", "timeout"] true [orphanSig]
      [flatBar 0] [] [] constStopCfg constProfitCfg [] "capital" (by decide)
      (by decide) (by decide)⟩,
   ⟨by decide,
    missing_signal_fields_rejected.2 engineStart noEntryTsSig liveBar0
      (Or.inr (Or.inr (Or.inr (by decide))))⟩⟩

/-! ## C10 -/

theorem ckpt_preserved_no_replace (ops : List CkptOp) (fs : CkptFs)
    (h : ∀ op ∈ ops, op ≠ CkptOp.replaceTmp) :
    (runCkptOps fs ops).ckpt = fs.ckpt := by
  induction ops generalizing fs with
  | nil => rfl
  | cons o os ih =>
    have ho : o ≠ CkptOp.replaceTmp := h o (List.mem_cons_self o os)
    have hos : ∀ op ∈ os, op ≠ CkptOp.replaceTmp :=
      fun op hop => h op (List.mem_cons_of_mem o hop)
    simp only [runCkptOps, List.foldl_cons]
    rw [show (os.foldl ckptStep (ckptStep fs o)) =
        runCkptOps (ckptStep fs o) os from rfl]
    rw [ih _ hos]
    cases o with
    | openTmp => rfl
    | writeTmp c => rfl
    | replaceTmp => exact absurd rfl ho

theorem tmp_after_writes (chunks : List (List Nat)) (fs : CkptFs)
    (acc : List Nat) :
    (chunks.map CkptOp.writeTmp).foldl ckptStep { fs with tmp := some acc } =
      { fs with tmp := some (acc ++ chunks.join) } := by
  induction chunks generalizing acc with
  | nil => simp
  | cons c cs ih =>
    simp only [List.map_cons, List.foldl_cons, ckptStep, Option.getD_some]
    rw [ih (acc ++ c)]
    simp [List.append_assoc]

/-- C10: every checkpoint write is atomic.  `save_state` streams the pickled
snapshot into the temporary file and then renames it over the checkpoint
path (`engine.py` lines 195-199), so after any prefix of its file-system
operations (any crash point) the checkpoint path holds either the previous
checkpoint or the complete new snapshot — never a partial write — and the
completed sequence installs the full snapshot. -/
theorem save_state_checkpoint_atomic (fs0 : CkptFs) (snapshot : List Nat)
    (chunks : List (List Nat)) (hjoin : chunks.join = snapshot) :
    (∀ k, (runCkptOps fs0 ((save_state_ops chunks).take k)).ckpt = fs0.ckpt ∨
          (runCkptOps fs0 ((save_state_ops chunks).take k)).ckpt =
            some snapshot) ∧
    (runCkptOps fs0 (save_state_ops chunks)).ckpt = some snapshot := by
  have hsplit : save_state_ops chunks =
      (CkptOp.openTmp :: chunks.map CkptOp.writeTmp) ++ [CkptOp.replaceTmp] :=
    rfl
  have hfront : runCkptOps fs0 (CkptOp.openTmp :: chunks.map CkptOp.writeTmp)
      = { fs0 with tmp := some snapshot } := by
    simp only [runCkptOps, List.foldl_cons]
    rw [show ckptStep fs0 CkptOp.openTmp =
        { fs0 with tmp := some ([] : List Nat) } from rfl]
    rw [show ((chunks.map CkptOp.writeTmp).foldl ckptStep
        { fs0 with tmp := some ([] : List Nat) }) =
        (chunks.map CkptOp.writeTmp).foldl ckptStep
        { fs0 with tmp := some ([] : List Nat) } from rfl]
    rw [tmp_after_writes chunks fs0 []]
    simp [hjoin]
  have hfull : (runCkptOps fs0 (save_state_ops chunks)).ckpt = some snapshot := by
    rw [hsplit]
    simp only [runCkptOps, List.foldl_append]
    rw [show ((CkptOp.openTmp :: chunks.map CkptOp.writeTmp).foldl ckptStep fs0)
        = runCkptOps fs0 (CkptOp.openTmp :: chunks.map CkptOp.writeTmp) from
        rfl]
    rw [hfront]
    rfl
  refine ⟨?_, hfull⟩
  intro k
  by_cases hk : (save_state_ops chunks).length ≤ k
  · right
    rw [List.take_of_length_le hk]
    exact hfull
  · left
    push_neg at hk
    have hk' : k ≤ (CkptOp.openTmp :: chunks.map CkptOp.writeTmp).length := by
      have : (save_state_ops chunks).length =
          (CkptOp.openTmp :: chunks.map CkptOp.writeTmp).length + 1 := by
        rw [hsplit]
        simp
      omega
    rw [hsplit, List.take_append_of_le_length hk']
    apply ckpt_preserved_no_replace
    intro op hop
    have hmem : op ∈ CkptOp.openTmp :: chunks.map CkptOp.writeTmp :=
      List.take_subset k _ hop
    rcases List.mem_cons.1 hmem with h | h
    · rw [h]
      intro hcon
      cases hcon
    · rcases List.mem_map.1 h with ⟨c, _, rfl⟩
      intro hcon
      cases hcon

/-- Witness for C10 at a concrete input: a two-chunk write of the snapshot
`[1, 2, 3]` over a previous checkpoint `[9]`; after two of the four
operations the checkpoint is unchanged or complete, and the full sequence
installs the snapshot. -/
theorem save_state_checkpoint_atomic_witness :
    (([[1], [2, 3]] : List (List Nat)).join = [1, 2, 3]) ∧
    ((runCkptOps ⟨none, some [9]⟩ ((save_state_ops [[1], [2, 3]]).take 2)).ckpt
        = (⟨none, some [9]⟩ : CkptFs).ckpt ∨
      (runCkptOps ⟨none, some [9]⟩ ((save_state_ops [[1], [2, 3]]).take 2)).ckpt
        = some [1, 2, 3]) ∧
    (runCkptOps ⟨none, some [9]⟩ (save_state_ops [[1], [2, 3]])).ckpt =
      some [1, 2, 3] :=
  ⟨by decide,
   (save_state_checkpoint_atomic ⟨none, some [9]⟩ [1, 2, 3] [[1], [2, 3]]
     (by decide)).1 2,
   (save_state_checkpoint_atomic ⟨none, some [9]⟩ [1, 2, 3] [[1], [2, 3]]
     (by decide)).2⟩

/-! ## C6 -/

theorem seriesItem_singleton {l : List Int} {p : Int}
    (h : seriesItem l = .ok p) : l = [p] := by
  match l with
  | [] => exact Except.noConfusion h
  | [x] =>
    have h' : (Except.ok x : Except PyError Int) = .ok p := h
    cases h'
    rfl
  | x :: y :: rest => exact Except.noConfusion h

/-- C6: characterization of the batch evaluator.  Whenever
`execute_trade_worker` returns a result, the exit position is the first
post-entry-window position at which the permission-masked stop mask or
profit mask is true (`firstTrue`, the spec-side earliest-wins function):
the record's exit time and exit price are read at window position `d`
mapped back to the series (`entry + d + 1`) when such a position exists,
and otherwise the exit is at the timeout position with reason `timeout`;
in both cases the Close row at the exit position is the one-element row
holding the record's exit price (its `.item()`). -/
theorem batch_exit_first_hit_spec
    (md : List Bar) (dates : List DateObj) (events : List EventObj)
    (sr : StopCfg) (pr : ProfitCfg) (vr : List VolCfg) (sig : SignalRow)
    (stop : StopObj) (profit : ProfitObj) (vols : List VolObj)
    (rec : TradeRecord)
    (hs : make_stop (md.getD (entryIloc md sig) default).close sig.trade_type
      sr = .ok stop)
    (hp : make_profit (md.getD (entryIloc md sig) default).close sig.trade_type
      pr = .ok profit)
    (hv : vr.mapM (make_volume_rule (md.getD (entryIloc md sig) default).volume
      sig.trade_type) = .ok vols)
    (hok : execute_trade_worker md dates events sr pr vr sig = .ok rec) :
    (∀ d, firstTrue
        (((stop.exit_mask (tradeWindow md sig)).zipWith and
            (rulesMask dates events vols (tradeWindow md sig))).zipWith or
          ((profit.exit_mask (tradeWindow md sig)).zipWith and
            (rulesMask dates events vols (tradeWindow md sig)))) = some d →
      rec.exit_reason ≠ .timeout ∧
      rec.exit_time = (mdIndex md).getD (entryIloc md sig + d + 1) 0 ∧
      (md.getD (entryIloc md sig + d + 1) default).close = [rec.exit_price]) ∧
    (firstTrue
        (((stop.exit_mask (tradeWindow md sig)).zipWith and
            (rulesMask dates events vols (tradeWindow md sig))).zipWith or
          ((profit.exit_mask (tradeWindow md sig)).zipWith and
            (rulesMask dates events vols (tradeWindow md sig)))) = none →
      rec.exit_reason = .timeout ∧
      rec.exit_time = (mdIndex md).getD (timeoutIloc md sig) 0 ∧
      (md.getD (timeoutIloc md sig) default).close = [rec.exit_price]) := by
  cases hmem : (mdIndex md).contains sig.entry_ts with
  | false =>
    simp only [execute_trade_worker] at hok
    rw [if_pos (by rw [hmem])] at hok
    cases hok
  | true =>
    simp only [execute_trade_worker] at hok
    rw [if_neg (ne_false_of_eq_true hmem)] at hok
    rw [hs, hp, hv] at hok
    dsimp only at hok
    cases hw : (tradeWindow md sig).isEmpty with
    | true =>
      rw [if_pos (by rw [hw])] at hok
      cases hok
    | false =>
      rw [if_neg (ne_true_of_eq_false hw)] at hok
      set m := ((stop.exit_mask (tradeWindow md sig)).zipWith and
          (rulesMask dates events vols (tradeWindow md sig))).zipWith or
        ((profit.exit_mask (tradeWindow md sig)).zipWith and
          (rulesMask dates events vols (tradeWindow md sig))) with hm
      cases hany : m.any id with
      | false =>
        rw [if_neg (ne_true_of_eq_false hany)] at hok
        cases hitem : seriesItem (md.getD (timeoutIloc md sig) default).close
          with
        | error e =>
          rw [hitem] at hok
          cases hok
        | ok p =>
          rw [hitem] at hok
          cases hok
          refine ⟨?_, ?_⟩
          · intro d hd
            rw [firstTrue_eq_none hany] at hd
            cases hd
          · intro _
            exact ⟨rfl, rfl, seriesItem_singleton hitem⟩
      | true =>
        rw [if_pos hany] at hok
        have hft : firstTrue m = some (argmaxBool m) := firstTrue_eq_argmax hany
        have hgd : m.getD (argmaxBool m) false = true := firstTrue_getD hft
        refine ⟨?_, ?_⟩
        · intro d hd
          rw [hft] at hd
          cases hd
          cases hph : ((profit.exit_mask (tradeWindow md sig)).zipWith and
              (rulesMask dates events vols (tradeWindow md sig))).getD
              (argmaxBool m) false with
          | true =>
            rw [if_pos hph] at hok
            dsimp only at hok
            cases hitem : seriesItem
                (md.getD (entryIloc md sig + argmaxBool m + 1) default).close
              with
            | error e =>
              rw [hitem] at hok
              cases hok
            | ok p =>
              rw [hitem] at hok
              cases hok
              exact ⟨by simp, rfl, seriesItem_singleton hitem⟩
          | false =>
            rw [if_neg (ne_true_of_eq_false hph)] at hok
            cases hsh : ((stop.exit_mask (tradeWindow md sig)).zipWith and
                (rulesMask dates events vols (tradeWindow md sig))).getD
                (argmaxBool m) false with
            | true =>
              rw [if_pos hsh] at hok
              dsimp only at hok
              cases hitem : seriesItem
                  (md.getD (entryIloc md sig + argmaxBool m + 1) default).close
                with
              | error e =>
                rw [hitem] at hok
                cases hok
              | ok p =>
                rw [hitem] at hok
                cases hok
                exact ⟨by simp, rfl, seriesItem_singleton hitem⟩
            | false =>
              rcases zipWith_or_getD_true hgd with hcon | hcon
              · rw [hsh] at hcon
                cases hcon
              · rw [hph] at hcon
                cases hcon
        · intro h0
          rw [hft] at h0
          cases h0

/-- Witness for C6 at a concrete input: the flat six-bar series with a 3-bar
timeout, where no masked position is hit and the worker exits at the timeout
position with reason `timeout` and the close price there. -/
theorem batch_exit_first_hit_spec_witness :
    (execute_trade_worker flatMd [] [] constStopCfg constProfitCfg []
        timeoutSig =
      .ok ⟨"4", ["AAPL"], [1], [1000], 0, 3, [100], 100, .timeout⟩) ∧
    (firstTrue
        ((((StopObj.constant [100] [1] [98] 2).exit_mask
              (tradeWindow flatMd timeoutSig)).zipWith and
            (rulesMask [] [] [] (tradeWindow flatMd timeoutSig))).zipWith or
          (((ProfitObj.constant [100] [1] [105] 5).exit_mask
              (tradeWindow flatMd timeoutSig)).zipWith and
            (rulesMask [] [] [] (tradeWindow flatMd timeoutSig)))) = none →
      (⟨"4", ["AAPL"], [1], [1000], 0, 3, [100], 100, .timeout⟩ :
          TradeRecord).exit_reason = .timeout ∧
      (⟨"4", ["AAPL"], [1], [1000], 0, 3, [100], 100, .timeout⟩ :
          TradeRecord).exit_time =
        (mdIndex flatMd).getD (timeoutIloc flatMd timeoutSig) 0 ∧
      (flatMd.getD (timeoutIloc flatMd timeoutSig) default).close =
        [(⟨"4", ["AAPL"], [1], [1000], 0, 3, [100], 100, .timeout⟩ :
          TradeRecord).exit_price]) :=
  ⟨by decide,
   (batch_exit_first_hit_spec flatMd [] [] constStopCfg constProfitCfg []
     timeoutSig (.constant [100] [1] [98] 2) (.constant [100] [1] [105] 5) []
     ⟨"4", ["AAPL"], [1], [1000], 0, 3, [100], 100, .timeout⟩
     (by decide) (by decide) (by decide) (by decide)).2⟩
